import Mathlib

/-!
Shallow embedding of the material-creator extension of the Editor repository
(src/extensions/material-creator/material.ts) and of the GUI edition helper
(src/editor/gui/edition.ts).

The embedding follows the TypeScript sources line by line.  External
babylonjs collaborators (the MaterialHelper preparation routines, the engine
effect compiler, the PushMaterial rebind test) are modelled as opaque
parameters bundled in an environment record, since they are library code
outside this repository; the control flow, the field updates and the order of
operations are taken from the repository source.
-/

namespace Editor

/-- A loaded or loading texture, as seen through the BaseTexture interface:
an identity and the result of its isReady() poll. -/
structure Texture where
  id : Nat
  ready : Bool
deriving DecidableEq, Repr

/-- A compiled GPU program handle (babylonjs Effect): only its asynchronous
readiness poll is observable from material.ts. -/
structure Effect where
  ready : Bool
deriving DecidableEq, Repr

/-- The CustomMaterialDefines flag record from material.ts, together with the
dirty-domain bookkeeping it inherits from MaterialDefines (the dirty bits that
material.ts reads and that markAsProcessed clears). -/
structure CustomMaterialDefines where
  DIFFUSE : Bool
  CLIPPLANE : Bool
  ALPHATEST : Bool
  DEPTHPREPASS : Bool
  POINTSIZE : Bool
  FOG : Bool
  NORMAL : Bool
  UV1 : Bool
  UV2 : Bool
  VERTEXCOLOR : Bool
  VERTEXALPHA : Bool
  NUM_BONE_INFLUENCERS : Nat
  BonesPerMesh : Nat
  INSTANCES : Bool
  _isDirty : Bool
  _areTexturesDirty : Bool
  _areLightsDirty : Bool
  _areMiscDirty : Bool
  _areAttributesDirty : Bool
  _needUVs : Bool
  _needNormals : Bool
deriving DecidableEq, Repr

/-- The defines record produced by new CustomMaterialDefines(): every feature
flag false, every dirty domain initially dirty (MaterialDefines.rebuild). -/
def CustomMaterialDefines.initial : CustomMaterialDefines :=
  { DIFFUSE := false, CLIPPLANE := false, ALPHATEST := false,
    DEPTHPREPASS := false, POINTSIZE := false, FOG := false, NORMAL := false,
    UV1 := false, UV2 := false, VERTEXCOLOR := false, VERTEXALPHA := false,
    NUM_BONE_INFLUENCERS := 0, BonesPerMesh := 0, INSTANCES := false,
    _isDirty := true, _areTexturesDirty := true, _areLightsDirty := true,
    _areMiscDirty := true, _areAttributesDirty := true,
    _needUVs := false, _needNormals := false }

/-- MaterialDefines.markAsProcessed: clears the aggregate dirty bit and every
per-domain dirty bit. -/
def CustomMaterialDefines.markAsProcessed (d : CustomMaterialDefines) :
    CustomMaterialDefines :=
  { d with _isDirty := false, _areTexturesDirty := false,
           _areLightsDirty := false, _areMiscDirty := false,
           _areAttributesDirty := false }

/-- The user supplied hook object (CustomMaterialCode).  A malformed object
may lack the construction callback, which we record as an Option; the
remaining callbacks are not consulted at construction time. -/
structure CustomMaterialCode where
  ctorCallback : Option Unit
deriving DecidableEq, Repr

/-- The CustomMaterial fields that material.ts reads or writes, including the
PushMaterial state it inherits (isFrozen, checkReadyOnEveryCall,
_wasPreviouslyReady, _activeEffect).  _renderId starts undefined in the
TypeScript class, hence the Option. -/
structure MaterialState where
  name : String
  isFrozen : Bool
  _wasPreviouslyReady : Bool
  checkReadyOnEveryCall : Bool
  _renderId : Option Nat
  _diffuseTexture : Option Texture
  _disableLighting : Bool
  _maxSimultaneousLights : Nat
  pointsCloud : Bool
  _customCode : Option CustomMaterialCode
  _activeEffect : Option Effect
deriving DecidableEq, Repr

/-- The per-sub-mesh state material.ts touches: the lazily created defines
record and the cached effect handle. -/
structure SubMeshState where
  materialDefines : Option CustomMaterialDefines
  effect : Option Effect
deriving DecidableEq, Repr

/-- The scene and engine inputs read by material.ts: the current render id,
the global texture and light toggles and the fog configuration. -/
structure SceneCtx where
  renderId : Nat
  texturesEnabled : Bool
  lightsEnabled : Bool
  fogEnabled : Bool
  fogMode : Nat
deriving DecidableEq, Repr

/-- Scene.FOGMODE_NONE. -/
def FOGMODE_NONE : Nat := 0

/-- The external babylonjs collaborators used by isReadyForSubMesh, as opaque
functions: the four MaterialHelper defines-preparation routines (each mutates
the defines record in place, so each is a function on the record; the mesh,
scene and material arguments they close over are fixed for one call), the
engine effect compiler, and the StandardMaterial.DiffuseTextureEnabled global
toggle. -/
structure MaterialHelperEnv where
  prepareDefinesForMisc : CustomMaterialDefines → CustomMaterialDefines
  prepareDefinesForLights : CustomMaterialDefines → CustomMaterialDefines
  prepareDefinesForFrameBoundValues : CustomMaterialDefines → CustomMaterialDefines
  prepareDefinesForAttributes : CustomMaterialDefines → CustomMaterialDefines
  createEffect : CustomMaterialDefines → Effect
  diffuseTextureEnabled : Bool

/-- The textures dirty-domain block of isReadyForSubMesh (lines 126-139):
resets _needUVs, then, when scene textures and the standard diffuse toggle
are on and a diffuse texture is set, either reports early not-ready (second
component true, the texture has not finished loading) or records DIFFUSE and
_needUVs. -/
def refreshTextures (env : MaterialHelperEnv) (scene : SceneCtx)
    (m : MaterialState) (d : CustomMaterialDefines) :
    CustomMaterialDefines × Bool :=
  if d._areTexturesDirty then
    let d1 := { d with _needUVs := false }
    if scene.texturesEnabled then
      match m._diffuseTexture with
      | some t =>
        if env.diffuseTextureEnabled then
          if t.ready then
            ({ d1 with _needUVs := true, DIFFUSE := true }, false)
          else
            (d1, true)
        else (d1, false)
      | none => (d1, false)
    else (d1, false)
  else (d, false)

/-- The four remaining defines domains of isReadyForSubMesh (lines 141-151),
run in source order: misc, lights (whose boolean result is written into
_needNormals inside the modelled routine), frame-bound values, attributes. -/
def refreshOtherDomains (env : MaterialHelperEnv)
    (d : CustomMaterialDefines) : CustomMaterialDefines :=
  env.prepareDefinesForAttributes
    (env.prepareDefinesForFrameBoundValues
      (env.prepareDefinesForLights (env.prepareDefinesForMisc d)))

/-- The frozen-material early return test (lines 105-109). -/
def frozenShortcut (m : MaterialState) (sub : SubMeshState) : Bool :=
  m.isFrozen && m._wasPreviouslyReady && sub.effect.isSome

/-- The same-render-id early return test (lines 118-122). -/
def renderIdShortcut (scene : SceneCtx) (m : MaterialState)
    (sub : SubMeshState) : Bool :=
  !m.checkReadyOnEveryCall && sub.effect.isSome
    && decide (m._renderId = some scene.renderId)

/-- The outcome of one isReadyForSubMesh call: the returned boolean, the
updated material and sub-mesh state, and an event record of what the call
did (created the defines record, ran the post-texture domains, marked the
defines processed, called engine.createEffect). -/
structure ReadyResult where
  result : Bool
  material : MaterialState
  subMesh : SubMeshState
  createdDefines : Bool
  laterDomainsRan : Bool
  markedProcessed : Bool
  compileCalled : Bool
deriving DecidableEq, Repr

/-- The tail of isReadyForSubMesh (lines 224-231): fail when there is no
effect or the effect is not ready; otherwise record the render id, set
_wasPreviouslyReady and succeed. -/
def finishReady (scene : SceneCtx) (m : MaterialState) (sub : SubMeshState)
    (createdDefines markedProcessed compileCalled : Bool) : ReadyResult :=
  match sub.effect with
  | none =>
    ⟨false, m, sub, createdDefines, true, markedProcessed, compileCalled⟩
  | some eff =>
    if eff.ready then
      ⟨true,
       { m with _renderId := some scene.renderId, _wasPreviouslyReady := true },
       sub, createdDefines, true, markedProcessed, compileCalled⟩
    else
      ⟨false, m, sub, createdDefines, true, markedProcessed, compileCalled⟩

/-- CustomMaterial.isReadyForSubMesh (lines 104-232), translated clause by
clause: frozen early return; lazy creation of the defines record; same
render id early return; textures domain with its early not-ready return;
misc, lights, frame-bound and attributes domains; on a dirty defines set,
markAsProcessed followed by an engine.createEffect call stored with
subMesh.setEffect; finally the readiness poll that records the render id on
success. -/
def isReadyForSubMesh (env : MaterialHelperEnv) (scene : SceneCtx)
    (m : MaterialState) (sub : SubMeshState) : ReadyResult :=
  if frozenShortcut m sub then
    ⟨true, m, sub, false, false, false, false⟩
  else
    let createdDefines := sub.materialDefines.isNone
    let d0 := sub.materialDefines.getD CustomMaterialDefines.initial
    let sub0 : SubMeshState := { sub with materialDefines := some d0 }
    if renderIdShortcut scene m sub0 then
      ⟨true, m, sub0, createdDefines, false, false, false⟩
    else
      match refreshTextures env scene m d0 with
      | (d1, true) =>
        ⟨false, m, { sub0 with materialDefines := some d1 },
         createdDefines, false, false, false⟩
      | (d1, false) =>
        let d2 := refreshOtherDomains env d1
        if d2._isDirty then
          let d3 := d2.markAsProcessed
          let eff := env.createEffect d3
          finishReady scene m
            { sub0 with materialDefines := some d3, effect := some eff }
            createdDefines true true
        else
          finishReady scene m { sub0 with materialDefines := some d2 }
            createdDefines false false

/-- One entry of the EffectFallbacks chain built in isReadyForSubMesh: either
addFallback rank defineName (removal of one define at the given rank) or
addCPUSkinningFallback rank (force CPU side skinning at the given rank). -/
inductive FallbackEntry where
  | defineFallback (rank : Nat) (defineName : String)
  | cpuSkinning (rank : Nat)
deriving DecidableEq, Repr

/-- The explicit fallback construction of isReadyForSubMesh (lines 158-168),
in append order: addFallback 1 FOG when the FOG define is set, then the
MaterialHelper.HandleFallbacksForShadows steps (an external babylonjs routine
that only ever performs addFallback calls, here an opaque parameter producing
rank and define-name pairs from the defines and the light cap), then
addCPUSkinningFallback 0 exactly when NUM_BONE_INFLUENCERS is positive. -/
def buildFallbacks
    (handleFallbacksForShadows :
      CustomMaterialDefines → Nat → List (Nat × String))
    (d : CustomMaterialDefines) (maxSimultaneousLights : Nat) :
    List FallbackEntry :=
  (if d.FOG then [FallbackEntry.defineFallback 1 "FOG"] else [])
    ++ (handleFallbacksForShadows d maxSimultaneousLights).map
        (fun p => FallbackEntry.defineFallback p.1 p.2)
    ++ (if d.NUM_BONE_INFLUENCERS > 0 then [FallbackEntry.cpuSkinning 0] else [])

/-- The mesh inputs read by bindForSubMesh. -/
structure MeshCtx where
  applyFog : Bool
deriving DecidableEq, Repr

/-- The uniform and sampler writes bindForSubMesh can perform, one
constructor per source statement, in the vocabulary of the effect slots the
statement targets. -/
inductive BindAction where
  | bindWorldMatrix
  | setViewProjectionMatrix
  | bindBonesParameters
  | setDiffuseSampler
  | setDiffuseInfos
  | setDiffuseMatrix
  | bindClipPlane
  | setPointSize
  | bindEyePosition
  | setDiffuseColor
  | bindLights
  | setViewMatrix
  | bindFogParameters
  | afterBind
deriving DecidableEq, Repr

/-- The write sequence of the main body of bindForSubMesh (lines 248-290),
in source order: world matrix, view-projection matrix, bone parameters; then,
under the rebind test, the diffuse sampler with its infos and UV matrix (when
a texture is set and the global toggle is on), the clip plane, the point size
(when points-cloud mode is on) and the eye position; then unconditionally the
diffuse color, the lights (when scene lights are on and material lighting is
not disabled), the view matrix (when fog applies), the fog parameters and the
afterBind bookkeeping. -/
def bindActionList (mustRebind : Bool) (env : MaterialHelperEnv)
    (scene : SceneCtx) (m : MaterialState) (mesh : MeshCtx) :
    List BindAction :=
  [BindAction.bindWorldMatrix, BindAction.setViewProjectionMatrix,
   BindAction.bindBonesParameters]
  ++ (if mustRebind then
        (if m._diffuseTexture.isSome && env.diffuseTextureEnabled then
           [BindAction.setDiffuseSampler, BindAction.setDiffuseInfos,
            BindAction.setDiffuseMatrix]
         else [])
        ++ [BindAction.bindClipPlane]
        ++ (if m.pointsCloud then [BindAction.setPointSize] else [])
        ++ [BindAction.bindEyePosition]
      else [])
  ++ [BindAction.setDiffuseColor]
  ++ (if scene.lightsEnabled && !m._disableLighting then
        [BindAction.bindLights]
      else [])
  ++ (if scene.fogEnabled && mesh.applyFog
         && decide (scene.fogMode ≠ FOGMODE_NONE) then
        [BindAction.setViewMatrix]
      else [])
  ++ [BindAction.bindFogParameters, BindAction.afterBind]

/-- CustomMaterial.bindForSubMesh (lines 234-291): returns the sequence of
uniform and sampler writes it performs together with the updated material
state.  Both missing-defines and missing-effect early returns happen before
the _activeEffect assignment, so they leave the state untouched.  The
PushMaterial._mustRebind test (true when the bound program differs from the
previous draw, an inherited babylonjs predicate) is passed in as a boolean. -/
def bindForSubMesh (mustRebind : Bool) (env : MaterialHelperEnv)
    (scene : SceneCtx) (m : MaterialState) (mesh : MeshCtx)
    (sub : SubMeshState) : List BindAction × MaterialState :=
  match sub.materialDefines with
  | none => ([], m)
  | some _ =>
    match sub.effect with
    | none => ([], m)
    | some eff =>
      (bindActionList mustRebind env scene m mesh,
       { m with _activeEffect := some eff })

/-- The observable steps of CustomMaterial.dispose: disposing the diffuse
texture, then delegating to PushMaterial.dispose with the forceDisposeEffect
argument. -/
inductive DisposeAction where
  | textureDispose (t : Texture)
  | superDispose (forceDisposeEffect : Bool)
deriving DecidableEq, Repr

/-- CustomMaterial.dispose (lines 325-331): calls dispose() on the diffuse
texture whenever one is set, then calls the superclass dispose. -/
def dispose (m : MaterialState) (forceDisposeEffect : Bool) :
    List DisposeAction :=
  (match m._diffuseTexture with
   | some t => [DisposeAction.textureDispose t]
   | none => []) ++ [DisposeAction.superDispose forceDisposeEffect]

/-- The number of materials in a list referencing a given texture, used to
state sharing: a texture is exclusively referenced by a material when this
count is one. -/
def textureRefCount (materials : List MaterialState) (t : Texture) : Nat :=
  (materials.filter (fun m => m._diffuseTexture = some t)).length

/-- A JavaScript runtime failure, as surfaced when the constructor
dereferences a null hook or calls a missing callback. -/
inductive JsError where
  | typeError
deriving DecidableEq, Repr

/-- The CustomMaterial constructor (lines 84-89): stores the hook object and
invokes its construction callback.  A null hook makes the member access
throw; a hook without the callback makes the call throw.  The error escapes
the constructor, so the material is never produced. -/
def constructCustomMaterial (name : String)
    (customCode : Option CustomMaterialCode) :
    Except JsError MaterialState :=
  match customCode with
  | none => Except.error JsError.typeError
  | some code =>
    match code.ctorCallback with
    | none => Except.error JsError.typeError
    | some _ =>
      Except.ok
        { name := name, isFrozen := false, _wasPreviouslyReady := false,
          checkReadyOnEveryCall := false, _renderId := none,
          _diffuseTexture := none, _disableLighting := false,
          _maxSimultaneousLights := 4, pointsCloud := false,
          _customCode := some code, _activeEffect := none }

/-- CustomMaterial.Parse (lines 348-350): constructs the material with a null
hook object before the serialization helper fills in the fields. -/
def parseCustomMaterial (sourceName : String) :
    Except JsError MaterialState :=
  constructCustomMaterial sourceName none

/-- The runtime class of a value reaching Edition.addVector or
Edition.addColor, as discriminated by the instanceof checks in edition.ts. -/
inductive DatValue where
  | vector2
  | vector3
  | vector4
  | color3
  | color4
deriving DecidableEq, Repr

/-- The instanceof Vector3 test. -/
def instanceofVector3 : DatValue → Bool
  | DatValue.vector3 => true
  | _ => false

/-- The instanceof Vector4 test. -/
def instanceofVector4 : DatValue → Bool
  | DatValue.vector4 => true
  | _ => false

/-- The instanceof Color4 test. -/
def instanceofColor4 : DatValue → Bool
  | DatValue.color4 => true
  | _ => false

/-- Edition.addVector (edition.ts lines 158-170): the property names of the
controllers it adds to the folder, in order: x and y always, z when the
argument is a Vector3 or a Vector4, and w under the instanceof Color4 test
that the source performs. -/
def addVectorControllers (v : DatValue) : List String :=
  ["x", "y"]
    ++ (if instanceofVector3 v || instanceofVector4 v then ["z"] else [])
    ++ (if instanceofColor4 v then ["w"] else [])

/-- The early not-ready signal of the textures domain for a call on the given
sub-mesh: the second component of refreshTextures applied to the defines
record the call works on (the existing one, or the lazily created one). -/
def texturesEarlyReturn (env : MaterialHelperEnv) (scene : SceneCtx)
    (m : MaterialState) (sub : SubMeshState) : Bool :=
  (refreshTextures env scene m
    (sub.materialDefines.getD CustomMaterialDefines.initial)).2

/-- The defines record after all five domains of one isReadyForSubMesh call
have run (textures, then misc, lights, frame-bound values and attributes),
before any markAsProcessed. -/
def refreshedDefines (env : MaterialHelperEnv) (scene : SceneCtx)
    (m : MaterialState) (sub : SubMeshState) : CustomMaterialDefines :=
  refreshOtherDomains env
    (refreshTextures env scene m
      (sub.materialDefines.getD CustomMaterialDefines.initial)).1

/-- An environment whose preparation routines leave the defines unchanged and
whose compiler returns a still-pending effect, for concrete evaluations. -/
def idEnv : MaterialHelperEnv :=
  { prepareDefinesForMisc := id, prepareDefinesForLights := id,
    prepareDefinesForFrameBoundValues := id,
    prepareDefinesForAttributes := id,
    createEffect := fun _ => ⟨false⟩,
    diffuseTextureEnabled := true }

/-- A freshly constructed material with default PushMaterial state. -/
def baseMaterial : MaterialState :=
  { name := "mat", isFrozen := false, _wasPreviouslyReady := false,
    checkReadyOnEveryCall := false, _renderId := none,
    _diffuseTexture := none, _disableLighting := false,
    _maxSimultaneousLights := 4, pointsCloud := false,
    _customCode := none, _activeEffect := none }

/-- A scene at render id 7 with every global toggle on. -/
def sceneAt7 : SceneCtx := ⟨7, true, true, true, 0⟩

/-- A ready effect handle. -/
def readyEffect : Effect := ⟨true⟩

/-- A sub-mesh holding a ready effect and no defines record yet. -/
def subWithEffect : SubMeshState := ⟨none, some readyEffect⟩

/-- A frozen material that was previously ready. -/
def frozenMat : MaterialState :=
  { baseMaterial with isFrozen := true, _wasPreviouslyReady := true }

/-- A diffuse texture that has not finished loading. -/
def loadingTexture : Texture := ⟨0, false⟩

/-- A defines record whose textures domain is dirty but whose aggregate dirty
bit is clear, as after a processed pass followed by a texture-domain
invalidation. -/
def dTexturesDirtyOnly : CustomMaterialDefines :=
  { CustomMaterialDefines.initial with _isDirty := false }

/-- A material holding the loading texture, checking readiness on every call
so that no render-id shortcut applies. -/
def mLoadingTexture : MaterialState :=
  { baseMaterial with _diffuseTexture := some loadingTexture,
                      checkReadyOnEveryCall := true }

/-- A sub-mesh with the textures-dirty defines record and a ready effect. -/
def subTexturesDirty : SubMeshState := ⟨some dTexturesDirtyOnly, some readyEffect⟩

/-- A scene at render id 5 with textures enabled. -/
def sceneAt5 : SceneCtx := ⟨5, true, true, true, 0⟩

/-- The identity environment with the StandardMaterial diffuse-texture global
toggle switched off. -/
def envDiffuseOff : MaterialHelperEnv := { idEnv with diffuseTextureEnabled := false }

/-- A defines record with one bone influencer and fog, for the fallback
chain. -/
def dOneBone : CustomMaterialDefines :=
  { CustomMaterialDefines.initial with NUM_BONE_INFLUENCERS := 1, FOG := true }

/-- A texture shared between two materials. -/
def sharedTexture : Texture := ⟨3, true⟩

/-- The first material referencing the shared texture. -/
def mSharingA : MaterialState :=
  { baseMaterial with name := "a", _diffuseTexture := some sharedTexture }

/-- The second material referencing the shared texture. -/
def mSharingB : MaterialState :=
  { baseMaterial with name := "b", _diffuseTexture := some sharedTexture }

/-- A fully processed defines record: every dirty bit clear. -/
def dProcessed : CustomMaterialDefines :=
  CustomMaterialDefines.initial.markAsProcessed

/-- A sub-mesh carrying the processed defines record and a ready effect. -/
def subProcessed : SubMeshState := ⟨some dProcessed, some readyEffect⟩

/-- A material whose recorded render id matches the scene at render id 7. -/
def mSameFrame : MaterialState := { baseMaterial with _renderId := some 7 }

/-- A material that checks readiness on every call, so that the render-id
shortcut never applies. -/
def mCheckEvery : MaterialState :=
  { baseMaterial with checkReadyOnEveryCall := true }

/-- A sub-mesh with a fresh (all-dirty) defines record and a ready effect. -/
def subInit : SubMeshState := ⟨some CustomMaterialDefines.initial, some readyEffect⟩

end Editor

namespace Editor

/-- C4: for every frozen material that was previously ready and whose
sub-mesh still holds an effect handle, isReadyForSubMesh returns true
immediately, leaves the material and sub-mesh state (and hence the
DefinesSet) untouched, runs no defines domain, and calls no compiler,
whatever the scene state and the helper environment are. -/
theorem C4_frozen_ready_shortcut (env : MaterialHelperEnv) (scene : SceneCtx)
    (m : MaterialState) (sub : SubMeshState)
    (hf : m.isFrozen = true) (hw : m._wasPreviouslyReady = true)
    (he : sub.effect.isSome = true) :
    isReadyForSubMesh env scene m sub =
      ⟨true, m, sub, false, false, false, false⟩ := by
  have hfz : frozenShortcut m sub = true := by
    simp [frozenShortcut, hf, hw, he]
  unfold isReadyForSubMesh
  simp [hfz]

/-- C4 witness: a concrete frozen, previously ready material with a cached
effect returns ready untouched. -/
theorem C4_frozen_ready_shortcut_witness :
    isReadyForSubMesh idEnv sceneAt7 frozenMat subWithEffect =
      ⟨true, frozenMat, subWithEffect, false, false, false, false⟩ :=
  C4_frozen_ready_shortcut idEnv sceneAt7 frozenMat subWithEffect rfl rfl rfl

/-- C10: every bindForSubMesh call on a sub-mesh with no material defines or
no effect performs no uniform or sampler write and returns the material state
unchanged. -/
theorem C10_bind_early_return (mustRebind : Bool) (env : MaterialHelperEnv)
    (scene : SceneCtx) (m : MaterialState) (mesh : MeshCtx)
    (sub : SubMeshState)
    (h : sub.materialDefines = none ∨ sub.effect = none) :
    bindForSubMesh mustRebind env scene m mesh sub = ([], m) := by
  rcases h with h | h
  · simp [bindForSubMesh, h]
  · cases hd : sub.materialDefines <;> simp [bindForSubMesh, h, hd]

/-- C10 witness: a concrete bind call on a sub-mesh with neither defines nor
effect is a no-op. -/
theorem C10_bind_early_return_witness :
    bindForSubMesh true idEnv sceneAt7 baseMaterial ⟨true⟩ ⟨none, none⟩ =
      ([], baseMaterial) :=
  C10_bind_early_return true idEnv sceneAt7 baseMaterial ⟨true⟩ ⟨none, none⟩
    (Or.inl rfl)

/-- C9: in Edition.addVector the fourth-component branch tests instanceof
Color4, so the w controller appears exactly for Color4 values; in particular
it is never added for any of the declared argument classes Vector2, Vector3,
Vector4, and a Vector4 argument yields only the x, y and z controllers. -/
theorem C9_addVector_w_branch (v : DatValue) :
    ("w" ∈ addVectorControllers v ↔ instanceofColor4 v = true)
  ∧ ((v = DatValue.vector2 ∨ v = DatValue.vector3 ∨ v = DatValue.vector4) →
      "w" ∉ addVectorControllers v)
  ∧ addVectorControllers DatValue.vector4 = ["x", "y", "z"] := by
  cases v <;> exact ⟨by decide, by decide, rfl⟩

/-- C9 witness: a Vector4 argument never receives the w controller. -/
theorem C9_addVector_w_branch_witness :
    "w" ∉ addVectorControllers DatValue.vector4 :=
  (C9_addVector_w_branch DatValue.vector4).2.1 (Or.inr (Or.inr rfl))

/-- C8: a null hook object or a hook lacking the construction callback makes
the CustomMaterial constructor fail with a type error, so no material state
is ever produced; the static Parse constructs with a null hook and therefore
always fails at construction time, before any per-frame operation. -/
theorem C8_malformed_hook_construction (name sourceName : String)
    (code : CustomMaterialCode) (hmiss : code.ctorCallback = none) :
    constructCustomMaterial name none = Except.error JsError.typeError
  ∧ constructCustomMaterial name (some code) = Except.error JsError.typeError
  ∧ parseCustomMaterial sourceName = Except.error JsError.typeError := by
  refine ⟨rfl, ?_, rfl⟩
  simp [constructCustomMaterial, hmiss]

/-- C8 witness: a concrete hook without the construction callback and a
concrete Parse call both fail at construction. -/
theorem C8_malformed_hook_construction_witness :
    constructCustomMaterial "m" (some ⟨none⟩) = Except.error JsError.typeError
  ∧ parseCustomMaterial "m" = Except.error JsError.typeError :=
  ⟨(C8_malformed_hook_construction "m" "m" ⟨none⟩ rfl).2.1,
   (C8_malformed_hook_construction "m" "m" ⟨none⟩ rfl).2.2⟩

/-- C2 counterexample: a call on which every condition named by the claim
holds (textures domain dirty, scene textures enabled, diffuse texture present
and not ready) but the StandardMaterial diffuse-texture global toggle is off:
the call does not return false, it returns true and advances the render
counter from its initial undefined value to the current render id. -/
theorem C2_counterexample :
    (dTexturesDirtyOnly._areTexturesDirty = true
      ∧ sceneAt5.texturesEnabled = true
      ∧ mLoadingTexture._diffuseTexture = some loadingTexture
      ∧ loadingTexture.ready = false)
  ∧ (isReadyForSubMesh envDiffuseOff sceneAt5 mLoadingTexture subTexturesDirty).result
      = true
  ∧ (isReadyForSubMesh envDiffuseOff sceneAt5 mLoadingTexture subTexturesDirty).material._renderId
      = some sceneAt5.renderId
  ∧ mLoadingTexture._renderId = none := by
  exact ⟨⟨rfl, rfl, rfl, rfl⟩, rfl, rfl, rfl⟩

/-- C2 (amended): when, in addition to the textures domain being dirty, the
scene textures being enabled and the diffuse texture being present but not
ready, the StandardMaterial diffuse-texture global toggle is on, the call
returns false at once: the remaining domains are not evaluated, the defines
are not marked processed, no compile happens, the material (hence its render
counter) is unchanged, and the defines record only has its needs-UV bit
reset. -/
theorem C2_texture_not_ready (env : MaterialHelperEnv) (scene : SceneCtx)
    (m : MaterialState) (sub : SubMeshState) (d : CustomMaterialDefines)
    (t : Texture)
    (hfz : frozenShortcut m sub = false)
    (hrid : renderIdShortcut scene m sub = false)
    (hd : sub.materialDefines = some d)
    (hdirty : d._areTexturesDirty = true)
    (hte : scene.texturesEnabled = true)
    (htex : m._diffuseTexture = some t)
    (hglob : env.diffuseTextureEnabled = true)
    (hready : t.ready = false) :
    isReadyForSubMesh env scene m sub =
      ⟨false, m,
       { sub with materialDefines := some { d with _needUVs := false } },
       false, false, false, false⟩ := by
  have hrt : refreshTextures env scene m d = ({ d with _needUVs := false }, true) := by
    simp [refreshTextures, hdirty, hte, htex, hglob, hready]
  have hrid0 : renderIdShortcut scene m { sub with materialDefines := some d } = false := by
    simpa [renderIdShortcut] using hrid
  unfold isReadyForSubMesh
  simp [hfz, hd, hrid0, hrt]

/-- C2 witness: a concrete not-yet-loaded diffuse texture with the global
toggle on makes the call fail fast with the material state unchanged. -/
theorem C2_texture_not_ready_witness :
    isReadyForSubMesh idEnv sceneAt5 mLoadingTexture subTexturesDirty =
      ⟨false, mLoadingTexture,
       { subTexturesDirty with
          materialDefines := some { dTexturesDirtyOnly with _needUVs := false } },
       false, false, false, false⟩ :=
  C2_texture_not_ready idEnv sceneAt5 mLoadingTexture subTexturesDirty
    dTexturesDirtyOnly loadingTexture rfl rfl rfl rfl rfl rfl rfl rfl

/-- C3 counterexample: with one bone influencer and a hardware limit of 32
bones per draw (not exceeded), the explicitly built fallback chain still
contains the CPU-skinning step, refuting that the step appears exactly when
the influencer count exceeds the hardware limit. -/
theorem C3_counterexample :
    FallbackEntry.cpuSkinning 0 ∈ buildFallbacks (fun _ _ => []) dOneBone 4
  ∧ ¬ (dOneBone.NUM_BONE_INFLUENCERS > 32) := by
  constructor
  · simp [buildFallbacks, dOneBone, CustomMaterialDefines.initial]
  · decide

/-- C3 (amended): the chain built before compiling starts with the rank-1
fog-removal fallback exactly when the FOG define is set, continues with the
shadow fallback steps the babylonjs helper derives from the light and shadow
configuration (define removals only), and ends with the rank-0 CPU-skinning
fallback exactly when the bone-influencer count is positive, independently of
any hardware bone limit. -/
theorem buildFallbacks_mem
    (sfb : CustomMaterialDefines → Nat → List (Nat × String))
    (d : CustomMaterialDefines) (maxLights : Nat) (a : FallbackEntry) :
    a ∈ buildFallbacks sfb d maxLights ↔
      ((d.FOG = true ∧ a = FallbackEntry.defineFallback 1 "FOG")
        ∨ (∃ p ∈ sfb d maxLights, a = FallbackEntry.defineFallback p.1 p.2)
        ∨ (d.NUM_BONE_INFLUENCERS > 0 ∧ a = FallbackEntry.cpuSkinning 0)) := by
  unfold buildFallbacks
  cases hfog : d.FOG <;> by_cases hb : d.NUM_BONE_INFLUENCERS > 0 <;>
    simp [hfog, hb, eq_comm]

theorem C3_fallback_chain
    (sfb : CustomMaterialDefines → Nat → List (Nat × String))
    (d : CustomMaterialDefines) (maxLights : Nat)
    (hsfb : ∀ p ∈ sfb d maxLights, p.2 ≠ "FOG") :
    (FallbackEntry.defineFallback 1 "FOG" ∈ buildFallbacks sfb d maxLights
      ↔ d.FOG = true)
  ∧ (∀ r : Nat, FallbackEntry.cpuSkinning r ∈ buildFallbacks sfb d maxLights
      ↔ (r = 0 ∧ d.NUM_BONE_INFLUENCERS > 0))
  ∧ (d.FOG = true →
      (buildFallbacks sfb d maxLights).head?
        = some (FallbackEntry.defineFallback 1 "FOG"))
  ∧ (d.NUM_BONE_INFLUENCERS > 0 →
      (buildFallbacks sfb d maxLights).getLast?
        = some (FallbackEntry.cpuSkinning 0)) := by
  refine ⟨?_, ?_, ?_, ?_⟩
  · rw [buildFallbacks_mem]
    constructor
    · rintro (⟨hfog, _⟩ | ⟨p, hp, hpe⟩ | ⟨_, hpe⟩)
      · exact hfog
      · injection hpe with h1 h2
        exact absurd h2.symm (hsfb p hp)
      · exact FallbackEntry.noConfusion hpe
    · intro hfog
      exact Or.inl ⟨hfog, rfl⟩
  · intro r
    rw [buildFallbacks_mem]
    constructor
    · rintro (⟨_, hpe⟩ | ⟨p, _, hpe⟩ | ⟨hb, hpe⟩)
      · exact FallbackEntry.noConfusion hpe
      · exact FallbackEntry.noConfusion hpe
      · injection hpe with h1
        exact ⟨h1, hb⟩
    · rintro ⟨hr, hb⟩
      subst hr
      exact Or.inr (Or.inr ⟨hb, rfl⟩)
  · intro hfog
    simp [buildFallbacks, hfog]
  · intro hb
    have hsplit : buildFallbacks sfb d maxLights =
        ((if d.FOG then [FallbackEntry.defineFallback 1 "FOG"] else [])
          ++ (sfb d maxLights).map
              (fun p => FallbackEntry.defineFallback p.1 p.2))
          ++ [FallbackEntry.cpuSkinning 0] := by
      simp [buildFallbacks, hb, List.append_assoc]
    rw [hsplit, List.getLast?_concat]

/-- C3 witness: with one bone influencer, no shadow steps and fog set, the
chain starts with the fog fallback and ends with the CPU-skinning step. -/
theorem C3_fallback_chain_witness :
    (buildFallbacks (fun _ _ => []) dOneBone 4).head?
      = some (FallbackEntry.defineFallback 1 "FOG")
  ∧ (buildFallbacks (fun _ _ => []) dOneBone 4).getLast?
      = some (FallbackEntry.cpuSkinning 0) := by
  have h := C3_fallback_chain (fun _ _ => []) dOneBone 4
    (by intro p hp; cases hp)
  exact ⟨h.2.2.1 rfl, h.2.2.2 (by decide)⟩

/-- C7 counterexample: a material whose diffuse texture is also referenced by
a second material (reference count two, so not exclusively referenced) still
emits the texture dispose call when disposed, refuting that only an
exclusively referenced texture is released. -/
theorem C7_counterexample :
    DisposeAction.textureDispose sharedTexture ∈ dispose mSharingA false
  ∧ textureRefCount [mSharingA, mSharingB] sharedTexture = 2 := by
  constructor
  · simp [dispose, mSharingA, baseMaterial]
  · rfl

/-- C7 (amended): disposing a material calls dispose on its diffuse texture
exactly when one is set — regardless of whether other materials still
reference that texture — and otherwise only delegates to the superclass
dispose, forwarding the forceDisposeEffect argument; the method itself
performs no operation on any compiled program, so a program shared through an
identical variant key is not destroyed by it. -/
theorem C7_dispose_actions (m : MaterialState) (f : Bool) :
    ((∃ t, m._diffuseTexture = some t
        ∧ dispose m f = [DisposeAction.textureDispose t,
                         DisposeAction.superDispose f])
      ∨ (m._diffuseTexture = none
          ∧ dispose m f = [DisposeAction.superDispose f]))
  ∧ (∀ t : Texture,
      DisposeAction.textureDispose t ∈ dispose m f ↔ m._diffuseTexture = some t) := by
  constructor
  · cases ht : m._diffuseTexture with
    | none => exact Or.inr ⟨rfl, by simp [dispose, ht]⟩
    | some t => exact Or.inl ⟨t, rfl, by simp [dispose, ht]⟩
  · intro t
    cases ht : m._diffuseTexture with
    | none => simp [dispose, ht]
    | some t0 =>
      simp [dispose, ht, eq_comm]

/-- The final readiness poll of isReadyForSubMesh: its result is the
readiness of the sub-mesh effect, the sub-mesh is returned as given, the
event flags are returned as given, and the material is updated exactly on
the success path. -/
theorem finishReady_spec (scene : SceneCtx) (m : MaterialState)
    (sub : SubMeshState) (cd mp cc : Bool) :
    ((finishReady scene m sub cd mp cc).result = true ↔
       ∃ e : Effect, sub.effect = some e ∧ e.ready = true)
  ∧ (finishReady scene m sub cd mp cc).subMesh = sub
  ∧ (finishReady scene m sub cd mp cc).compileCalled = cc
  ∧ (finishReady scene m sub cd mp cc).markedProcessed = mp
  ∧ ((finishReady scene m sub cd mp cc).result = true →
       (finishReady scene m sub cd mp cc).material =
         { m with _renderId := some scene.renderId,
                  _wasPreviouslyReady := true })
  ∧ ((finishReady scene m sub cd mp cc).result = false →
       (finishReady scene m sub cd mp cc).material = m) := by
  unfold finishReady
  cases he : sub.effect with
  | none => simp
  | some eff => cases hr : eff.ready <;> simp [hr]

/-- Reduction of isReadyForSubMesh past its three early returns: when the
frozen shortcut, the render-id shortcut and the texture not-ready return all
fail to fire, the call runs every domain and ends in the final readiness
poll, compiling exactly when the refreshed defines are dirty. -/
theorem isReady_past_shortcuts (env : MaterialHelperEnv) (scene : SceneCtx)
    (m : MaterialState) (sub : SubMeshState)
    (hfz : frozenShortcut m sub = false)
    (hrid : renderIdShortcut scene m sub = false)
    (htex : texturesEarlyReturn env scene m sub = false) :
    isReadyForSubMesh env scene m sub =
      if (refreshedDefines env scene m sub)._isDirty then
        finishReady scene m
          { sub with
              materialDefines :=
                some (refreshedDefines env scene m sub).markAsProcessed,
              effect :=
                some (env.createEffect
                  (refreshedDefines env scene m sub).markAsProcessed) }
          sub.materialDefines.isNone true true
      else
        finishReady scene m
          { sub with
              materialDefines := some (refreshedDefines env scene m sub) }
          sub.materialDefines.isNone false false := by
  have hrid0 : renderIdShortcut scene m
      ⟨some (sub.materialDefines.getD CustomMaterialDefines.initial),
       sub.effect⟩ = false := hrid
  unfold isReadyForSubMesh
  simp only [hfz, Bool.false_eq_true, if_false]
  rcases hx : refreshTextures env scene m
      (sub.materialDefines.getD CustomMaterialDefines.initial) with ⟨d1, b⟩
  have hb : b = false := by
    have h := htex
    unfold texturesEarlyReturn at h
    rw [hx] at h
    exact h
  subst hb
  have hd1 : refreshedDefines env scene m sub = refreshOtherDomains env d1 := by
    unfold refreshedDefines
    rw [hx]
  rw [hd1]
  simp only [hrid0, Bool.false_eq_true, if_false, hx]

/-- C5: in every call that reaches past the early returns (not frozen-ready,
no render-id shortcut, no texture still loading), isReadyForSubMesh returns
true exactly when the sub-mesh ends up holding a ready effect; exactly on the
true outcome the material records the current render counter and marks itself
previously ready, and on the false outcome the material is unchanged. -/
theorem C5_ready_iff_effect_ready (env : MaterialHelperEnv) (scene : SceneCtx)
    (m : MaterialState) (sub : SubMeshState)
    (hfz : frozenShortcut m sub = false)
    (hrid : renderIdShortcut scene m sub = false)
    (htex : texturesEarlyReturn env scene m sub = false) :
    ((isReadyForSubMesh env scene m sub).result = true ↔
       ∃ e : Effect,
         (isReadyForSubMesh env scene m sub).subMesh.effect = some e
           ∧ e.ready = true)
  ∧ ((isReadyForSubMesh env scene m sub).result = true →
       (isReadyForSubMesh env scene m sub).material =
         { m with _renderId := some scene.renderId,
                  _wasPreviouslyReady := true })
  ∧ ((isReadyForSubMesh env scene m sub).result = false →
       (isReadyForSubMesh env scene m sub).material = m) := by
  rw [isReady_past_shortcuts env scene m sub hfz hrid htex]
  by_cases hdd : (refreshedDefines env scene m sub)._isDirty = true
  · rw [if_pos hdd]
    obtain ⟨hiff, hsub, _, _, htrue, hfalse⟩ :=
      finishReady_spec scene m
        { sub with
            materialDefines :=
              some (refreshedDefines env scene m sub).markAsProcessed,
            effect :=
              some (env.createEffect
                (refreshedDefines env scene m sub).markAsProcessed) }
        sub.materialDefines.isNone true true
    rw [hsub]
    exact ⟨hiff, htrue, hfalse⟩
  · rw [if_neg hdd]
    obtain ⟨hiff, hsub, _, _, htrue, hfalse⟩ :=
      finishReady_spec scene m
        { sub with
            materialDefines := some (refreshedDefines env scene m sub) }
        sub.materialDefines.isNone false false
    rw [hsub]
    exact ⟨hiff, htrue, hfalse⟩

/-- C5 witness: a concrete call past the early returns whose compile yields a
pending effect returns false and leaves the material unchanged. -/
theorem C5_ready_iff_effect_ready_witness :
    (isReadyForSubMesh idEnv sceneAt5 mCheckEvery subInit).material
      = mCheckEvery := by
  have h := C5_ready_iff_effect_ready idEnv sceneAt5 mCheckEvery subInit
    rfl rfl rfl
  exact h.2.2 rfl

/-- C1: with checkReadyOnEveryCall false, a sub-mesh defines record in place
and a ready cached effect, a repeated call in the same render frame returns
true while leaving the material, the sub-mesh and its DefinesSet untouched,
running no domain and calling no compiler; and a call in a later frame whose
defines refresh passes the texture check and leaves the set not dirty returns
true, does not mark the defines processed, keeps the existing effect, and
never calls createEffect. -/
theorem C1_cache_hit (env : MaterialHelperEnv) (scene : SceneCtx)
    (m : MaterialState) (sub : SubMeshState) (d : CustomMaterialDefines)
    (eff : Effect)
    (hc : m.checkReadyOnEveryCall = false)
    (hd : sub.materialDefines = some d)
    (he : sub.effect = some eff)
    (hr : eff.ready = true) :
    (m._renderId = some scene.renderId →
      isReadyForSubMesh env scene m sub =
        ⟨true, m, sub, false, false, false, false⟩)
  ∧ (texturesEarlyReturn env scene m sub = false →
      (refreshedDefines env scene m sub)._isDirty = false →
      (isReadyForSubMesh env scene m sub).result = true
        ∧ (isReadyForSubMesh env scene m sub).compileCalled = false
        ∧ (isReadyForSubMesh env scene m sub).markedProcessed = false
        ∧ (isReadyForSubMesh env scene m sub).subMesh.effect = some eff) := by
  have hsub_eta : ({ sub with materialDefines := some d } : SubMeshState) = sub := by
    cases sub with
    | mk md e =>
      simp only at hd
      subst hd
      rfl
  constructor
  · intro hfr
    by_cases hfz : frozenShortcut m sub = true
    · unfold isReadyForSubMesh
      simp [hfz]
    · simp only [Bool.not_eq_true] at hfz
      have hsc : renderIdShortcut scene m sub = true := by
        simp [renderIdShortcut, hc, he, hfr]
      unfold isReadyForSubMesh
      simp only [hfz, Bool.false_eq_true, if_false, hd, Option.getD_some,
        Option.isNone_some]
      rw [hsub_eta, hsc]
      simp
  · intro htex hdd
    by_cases hfz : frozenShortcut m sub = true
    · unfold isReadyForSubMesh
      simp [hfz, he]
    · simp only [Bool.not_eq_true] at hfz
      by_cases hrid : renderIdShortcut scene m sub = true
      · unfold isReadyForSubMesh
        simp only [hfz, Bool.false_eq_true, if_false, hd, Option.getD_some,
          Option.isNone_some]
        rw [hsub_eta, hrid]
        simp [he]
      · simp only [Bool.not_eq_true] at hrid
        rw [isReady_past_shortcuts env scene m sub hfz hrid htex]
        rw [if_neg (by rw [hdd]; exact Bool.false_ne_true)]
        obtain ⟨hiff, hsub, hcc, hmp, _, _⟩ :=
          finishReady_spec scene m
            { sub with
                materialDefines := some (refreshedDefines env scene m sub) }
            sub.materialDefines.isNone false false
        refine ⟨hiff.mpr ⟨eff, he, hr⟩, hcc, hmp, ?_⟩
        rw [hsub]
        exact he

/-- C1 witness: a concrete same-frame repeat call hits the render-id cache
untouched, and a concrete later-frame call with clean defines returns ready
without compiling. -/
theorem C1_cache_hit_witness :
    isReadyForSubMesh idEnv sceneAt7 mSameFrame subProcessed
      = ⟨true, mSameFrame, subProcessed, false, false, false, false⟩
  ∧ (isReadyForSubMesh idEnv sceneAt7 baseMaterial subProcessed).result = true
  ∧ (isReadyForSubMesh idEnv sceneAt7 baseMaterial subProcessed).compileCalled
      = false := by
  refine ⟨?_, ?_⟩
  · exact (C1_cache_hit idEnv sceneAt7 mSameFrame subProcessed dProcessed
      readyEffect rfl rfl rfl rfl).1 rfl
  · have h := (C1_cache_hit idEnv sceneAt7 baseMaterial subProcessed
      dProcessed readyEffect rfl rfl rfl rfl).2 rfl rfl
    exact ⟨h.1, h.2.1⟩

set_option maxHeartbeats 1600000 in
/-- Membership in the bindForSubMesh write sequence, characterized per
action: the three leading matrix and bone writes, the diffuse color, the fog
parameters and afterBind are unconditional; the rebind block contributes the
sampler group, the clip plane, the point size and the eye position; the
lights and the view matrix have their own conditions. -/
theorem bindActionList_mem (mr : Bool) (env : MaterialHelperEnv)
    (scene : SceneCtx) (m : MaterialState) (mesh : MeshCtx)
    (a : BindAction) :
    a ∈ bindActionList mr env scene m mesh ↔
      ((a = BindAction.bindWorldMatrix ∨ a = BindAction.setViewProjectionMatrix
          ∨ a = BindAction.bindBonesParameters ∨ a = BindAction.setDiffuseColor
          ∨ a = BindAction.bindFogParameters ∨ a = BindAction.afterBind)
        ∨ (mr = true
            ∧ (a = BindAction.bindClipPlane ∨ a = BindAction.bindEyePosition))
        ∨ (mr = true
            ∧ (m._diffuseTexture.isSome && env.diffuseTextureEnabled) = true
            ∧ (a = BindAction.setDiffuseSampler ∨ a = BindAction.setDiffuseInfos
                ∨ a = BindAction.setDiffuseMatrix))
        ∨ (mr = true ∧ m.pointsCloud = true ∧ a = BindAction.setPointSize)
        ∨ ((scene.lightsEnabled && !m._disableLighting) = true
            ∧ a = BindAction.bindLights)
        ∨ ((scene.fogEnabled && mesh.applyFog
              && decide (scene.fogMode ≠ FOGMODE_NONE)) = true
            ∧ a = BindAction.setViewMatrix)) := by
  unfold bindActionList
  cases mr <;>
    cases hds : (m._diffuseTexture.isSome && env.diffuseTextureEnabled) <;>
    cases hpc : m.pointsCloud <;>
    cases hl : (scene.lightsEnabled && !m._disableLighting) <;>
    cases hfm : (scene.fogEnabled && mesh.applyFog
      && decide (scene.fogMode ≠ FOGMODE_NONE)) <;>
    simp [hds, hpc, hl, hfm] <;>
    tauto

/-- C6: in every bindForSubMesh call that binds (defines and effect both
present), the diffuse sampler with its UV-transform matrix and infos, the
clip-plane uniforms, the point-size uniform and the eye-position uniform are
written only when the rebind test fires (bound program changed since the
previous draw), while the world and view-projection matrices, the bone
parameters, the diffuse color with alpha and visibility, and the fog binding
step run on every call, and the light uniforms run exactly when scene lights
are enabled and material lighting is not disabled. -/
theorem C6_bind_state_classes (mr : Bool) (env : MaterialHelperEnv)
    (scene : SceneCtx) (m : MaterialState) (mesh : MeshCtx)
    (sub : SubMeshState) (d : CustomMaterialDefines) (eff : Effect)
    (hd : sub.materialDefines = some d)
    (he : sub.effect = some eff) :
    (BindAction.setDiffuseSampler ∈ (bindForSubMesh mr env scene m mesh sub).1
       ↔ (mr = true ∧ m._diffuseTexture.isSome = true
            ∧ env.diffuseTextureEnabled = true))
  ∧ (BindAction.setDiffuseInfos ∈ (bindForSubMesh mr env scene m mesh sub).1
       ↔ (mr = true ∧ m._diffuseTexture.isSome = true
            ∧ env.diffuseTextureEnabled = true))
  ∧ (BindAction.setDiffuseMatrix ∈ (bindForSubMesh mr env scene m mesh sub).1
       ↔ (mr = true ∧ m._diffuseTexture.isSome = true
            ∧ env.diffuseTextureEnabled = true))
  ∧ (BindAction.bindClipPlane ∈ (bindForSubMesh mr env scene m mesh sub).1
       ↔ mr = true)
  ∧ (BindAction.setPointSize ∈ (bindForSubMesh mr env scene m mesh sub).1
       ↔ (mr = true ∧ m.pointsCloud = true))
  ∧ (BindAction.bindEyePosition ∈ (bindForSubMesh mr env scene m mesh sub).1
       ↔ mr = true)
  ∧ BindAction.bindWorldMatrix ∈ (bindForSubMesh mr env scene m mesh sub).1
  ∧ BindAction.setViewProjectionMatrix ∈ (bindForSubMesh mr env scene m mesh sub).1
  ∧ BindAction.bindBonesParameters ∈ (bindForSubMesh mr env scene m mesh sub).1
  ∧ BindAction.setDiffuseColor ∈ (bindForSubMesh mr env scene m mesh sub).1
  ∧ BindAction.bindFogParameters ∈ (bindForSubMesh mr env scene m mesh sub).1
  ∧ (BindAction.bindLights ∈ (bindForSubMesh mr env scene m mesh sub).1
       ↔ (scene.lightsEnabled = true ∧ m._disableLighting = false)) := by
  have hbind : (bindForSubMesh mr env scene m mesh sub).1
      = bindActionList mr env scene m mesh := by
    simp [bindForSubMesh, hd, he]
  rw [hbind]
  refine ⟨?_, ?_, ?_, ?_, ?_, ?_, ?_, ?_, ?_, ?_, ?_, ?_⟩ <;>
    simp [bindActionList_mem, Bool.and_eq_true, and_assoc]

/-- C6 witness: a concrete rebinding call performs the clip-plane write and
the per-draw diffuse-color write. -/
theorem C6_bind_state_classes_witness :
    BindAction.bindClipPlane
      ∈ (bindForSubMesh true idEnv sceneAt7 baseMaterial ⟨true⟩ subProcessed).1
  ∧ BindAction.setDiffuseColor
      ∈ (bindForSubMesh true idEnv sceneAt7 baseMaterial ⟨true⟩ subProcessed).1 := by
  have h := C6_bind_state_classes true idEnv sceneAt7 baseMaterial ⟨true⟩
    subProcessed dProcessed readyEffect rfl rfl
  exact ⟨h.2.2.2.1.mpr rfl, h.2.2.2.2.2.2.2.2.2.1⟩

end Editor
